import Mathlib

/-!
# Digital Tailor pipeline — verification development

Shallow embedding of the LPC sprite-layer pipeline
(`tools/tailor/01_slice.py`, `02_tailor.py`, `03_stitch.py`):
slicing a spritesheet into 64x64 frames, compositing a robe layer over a
body layer, validating skin coverage in a fixed chest region, and
stitching frames back into a sheet.

Images are RGBA rasters: a width, a height, and a pixel function.
Channel values are naturals; well-formed pixels have channels ≤ 255.
The on-disk frame set written by the slicer and read by the stitcher is
modelled as a partial map `Nat → Nat → Option Image` from `(row, col)`
to frame content (`none` = no `{row}_{col}.png` file).
-/

namespace Tailor

/-- An RGBA pixel; channels are naturals (well-formed: ≤ 255). -/
structure RGBA where
  r : Nat
  g : Nat
  b : Nat
  a : Nat
deriving DecidableEq, Repr

/-- A pixel is well-formed when every channel fits in a byte. -/
def RGBA.wf (p : RGBA) : Prop :=
  p.r ≤ 255 ∧ p.g ≤ 255 ∧ p.b ≤ 255 ∧ p.a ≤ 255

instance (p : RGBA) : Decidable p.wf := by unfold RGBA.wf; infer_instance

/-- The fully transparent pixel `(0, 0, 0, 0)` used for blank canvases. -/
def transparent : RGBA := ⟨0, 0, 0, 0⟩

/-- An RGBA image: dimensions plus a total pixel function.
Only pixels with `x < width` and `y < height` are meaningful. -/
structure Image where
  width : Nat
  height : Nat
  px : Nat → Nat → RGBA

/-- Pixel-identity of two images: same dimensions and equal pixels
everywhere inside those dimensions. -/
def Image.pixEq (A B : Image) : Prop :=
  A.width = B.width ∧ A.height = B.height ∧
    ∀ x y, x < A.width → y < A.height → A.px x y = B.px x y

/-- `img.crop (left, top, right, bottom)` of PIL: the `(right-left) ×
(bottom-top)` subimage whose pixel `(x, y)` is the source pixel
`(left+x, top+y)`. -/
def Image.crop (img : Image) (left top right bottom : Nat) : Image :=
  ⟨right - left, bottom - top, fun x y => img.px (left + x) (top + y)⟩

/-! ## Constants (`01_slice.py` / `02_tailor.py` / `03_stitch.py`) -/

def TILE_SIZE : Nat := 64
def SHEET_COLS : Nat := 13
def SHEET_ROWS : Nat := 21

/-- Walk animation rows validated by default (`WALK_ROWS = [7,8,9,10]`). -/
def WALK_ROWS : List Nat := [7, 8, 9, 10]

/-! ## Slicer (`01_slice.py`, `slice_sheet`) -/

/-- The 64x64 cell crop at grid position `(r, c)`:
`sheet.crop((c*64, r*64, c*64+64, r*64+64))`. -/
def cellCrop (sheet : Image) (r c : Nat) : Image :=
  sheet.crop (c * TILE_SIZE) (r * TILE_SIZE)
    (c * TILE_SIZE + TILE_SIZE) (r * TILE_SIZE + TILE_SIZE)

/-- `tile.getbbox() is None` for an RGBA tile (PIL default
`alpha_only=True`): true exactly when every pixel's alpha is zero. -/
def tileIsEmpty (t : Image) : Bool :=
  (List.range t.height).all fun y =>
    (List.range t.width).all fun x => (t.px x y).a == 0

/-- Whether the slicer skips cell `(r, c)`: the crop's bounding box is
empty (all alpha zero). -/
def cellEmpty (sheet : Image) (r c : Nat) : Bool :=
  tileIsEmpty (cellCrop sheet r c)

/-- The frame files written by `slice_sheet` for a loaded sheet, as a
partial map: the loop writes `{r}_{c}.png` for every in-grid cell whose
crop is non-empty, where the grid is `rows = height // 64`,
`cols = width // 64`. -/
def slice_frames (sheet : Image) : Nat → Nat → Option Image := fun r c =>
  if r < sheet.height / TILE_SIZE ∧ c < sheet.width / TILE_SIZE then
    if cellEmpty sheet r c then none else some (cellCrop sheet r c)
  else none

/-- `frame_count` returned by `slice_sheet`: the number of non-empty
in-grid cells. -/
def slice_count (sheet : Image) : Nat :=
  ((List.range (sheet.height / TILE_SIZE)).flatMap fun r =>
    (List.range (sheet.width / TILE_SIZE)).filter fun c =>
      !cellEmpty sheet r c).length

/-- `slice_sheet`: the input path is modelled as `Option Image`
(`none` = `os.path.exists` is false). On a missing sheet it returns 0
and writes nothing; otherwise it returns the frame count and the frame
files. Printing is not modelled; the Lean function is total, matching
the code's no-exception behaviour on a missing path. -/
def slice_sheet (sheetOpt : Option Image) : Nat × (Nat → Nat → Option Image) :=
  match sheetOpt with
  | none => (0, fun _ _ => none)
  | some sheet => (slice_count sheet, slice_frames sheet)

/-! ## Stitcher (`03_stitch.py`, `stitch_sheet`) -/

/-- PIL nearest-neighbour resize of a tile to 64x64
(`tile.resize((64,64), Image.Resampling.NEAREST)`): output pixel
`(x, y)` samples the source at the floor of the scaled pixel centre. -/
def resizeNearest (t : Image) : Image :=
  ⟨TILE_SIZE, TILE_SIZE, fun x y =>
    t.px ((2 * x + 1) * t.width / (2 * TILE_SIZE))
         ((2 * y + 1) * t.height / (2 * TILE_SIZE))⟩

/-- `stitch_sheet` on an existing input directory: a `cols*64 × rows*64`
canvas initialised fully transparent; each in-grid cell with a frame
file is pasted at `(c*64, r*64)`, resized first if it is not 64x64.
`paste` with no mask copies pixels, alpha included. -/
def stitch_sheet (frames : Nat → Nat → Option Image) (rows cols : Nat) : Image :=
  ⟨cols * TILE_SIZE, rows * TILE_SIZE, fun x y =>
    match frames (y / TILE_SIZE) (x / TILE_SIZE) with
    | none => transparent
    | some t =>
      let t' := if t.width = TILE_SIZE ∧ t.height = TILE_SIZE then t
                else resizeNearest t
      t'.px (x % TILE_SIZE) (y % TILE_SIZE)⟩

/-! ## Skin classifier and coverage validator (`02_tailor.py`) -/

/-- One entry of the `SKIN_TONES` table. -/
structure SkinTone where
  r_min : Nat
  r_max : Nat
  g_min : Nat
  g_max : Nat
  b_min : Nat
  b_max : Nat
deriving DecidableEq, Repr

/-- The three flesh-tone ranges of `SKIN_TONES` (light, medium, dark). -/
def SKIN_TONES : List SkinTone :=
  [⟨200, 255, 160, 220, 130, 190⟩,
   ⟨180, 230, 130, 180, 100, 160⟩,
   ⟨100, 180, 70, 140, 50, 120⟩]

/-- `CHEST_BOX = (24, 28, 42, 48)` — `(x1, y1, x2, y2)` of the region
where skin must not show through the robe. -/
def CHEST_BOX : Nat × Nat × Nat × Nat := (24, 28, 42, 48)

/-- `ValidationResult` record of `02_tailor.py`. -/
structure ValidationResult where
  row : Nat
  col : Nat
  passed : Bool
  leak_count : Nat
  leak_pixels : List (Nat × Nat)
deriving DecidableEq, Repr

/-- `is_skin_pixel`: alpha below 200 is never skin; otherwise a pixel is
skin when some tone range contains its RGB and the extra heuristic
`r >= g and g >= b * 0.9` holds. For byte channels the Python float
comparison `g >= b * 0.9` coincides exactly with `10*g >= 9*b`: the
IEEE-double product `b * 0.9` differs from `0.9*b` by well under half an
ulp of the integer boundary values `9*b/10`, so no comparison flips. -/
def is_skin_pixel (p : RGBA) : Bool :=
  if p.a < 200 then false
  else SKIN_TONES.any fun t =>
    decide ((t.r_min ≤ p.r ∧ p.r ≤ t.r_max ∧
             t.g_min ≤ p.g ∧ p.g ≤ t.g_max ∧
             t.b_min ≤ p.b ∧ p.b ≤ t.b_max) ∧
            (p.g ≤ p.r ∧ 9 * p.b ≤ 10 * p.g))

/-- The pixel positions scanned inside the chest box, in loop order
(`for y in range(y1, min(y2, h)): for x in range(x1, min(x2, w))`),
as `(x, y)` pairs exactly as the code appends them. -/
def chestPixels (img : Image) : List (Nat × Nat) :=
  (List.range' CHEST_BOX.2.1 (min CHEST_BOX.2.2.2 img.height - CHEST_BOX.2.1)).flatMap
    fun y => (List.range' CHEST_BOX.1 (min CHEST_BOX.2.2.1 img.width - CHEST_BOX.1)).map
      fun x => (x, y)

/-- `validate_coverage`: collects the chest-box pixels classified as
skin; `passed` is `len(leak_pixels) <= tolerance` (tolerance is a
Python int, modelled as `Int`). -/
def validate_coverage (img : Image) (row col : Nat) (tolerance : Int) :
    ValidationResult :=
  let leak_pixels := (chestPixels img).filter fun q => is_skin_pixel (img.px q.1 q.2)
  { row := row
    col := col
    passed := decide ((leak_pixels.length : Int) ≤ tolerance)
    leak_count := leak_pixels.length
    leak_pixels := leak_pixels }

/-! ## Alpha compositing (`02_tailor.py`, `composite_frame`) -/

/-- Pillow's exact-division-by-255 macro
`SHIFTFORDIV255(a) = ((a >> 8) + a) >> 8`. -/
def shiftForDiv255 (n : Nat) : Nat := (n / 256 + n) / 256

/-- One pixel of Pillow's `Image.alpha_composite` (straight alpha,
`AlphaComposite.c`, `PRECISION_BITS = 7`): a fully transparent source
copies the destination; otherwise the premultiplied over-operator is
evaluated in fixed point with rounding constant `0x80 << 7` for the
colour channels and `0x80` for alpha. -/
def alphaCompositePix (dst src : RGBA) : RGBA :=
  if src.a = 0 then dst
  else
    let blend := dst.a * (255 - src.a)
    let outa255 := src.a * 255 + blend
    let coef1 := src.a * 255 * 255 * 128 / outa255
    let coef2 := 255 * 128 - coef1
    { r := shiftForDiv255 (src.r * coef1 + dst.r * coef2 + 128 * 128) / 128
      g := shiftForDiv255 (src.g * coef1 + dst.g * coef2 + 128 * 128) / 128
      b := shiftForDiv255 (src.b * coef1 + dst.b * coef2 + 128 * 128) / 128
      a := shiftForDiv255 (outa255 + 128) }

/-- `composite_frame`: loads the body frame; when the robe frame file
exists (`some`), alpha-composites it over the body pixelwise (the
pipeline's frames share the 64x64 size, so the overlay covers the whole
base); when it does not exist (`none`), returns the body unchanged. -/
def composite_frame (body : Image) (robe : Option Image) : Image :=
  match robe with
  | none => body
  | some rb => ⟨body.width, body.height,
      fun x y => alphaCompositePix (body.px x y) (rb.px x y)⟩

/-! ## Robe-only validation (`02_tailor.py`, `validate_robe_only`) -/

/-- Chest-box coverage counted by `validate_robe_only`: pixels of the
robe frame with alpha strictly above 200. -/
def robeCoverage (robe : Image) : Nat :=
  ((chestPixels robe).filter fun q => 200 < (robe.px q.1 q.2).a).length

/-- The per-frame body of `validate_robe_only`'s loop: `min_coverage`
is 140; `passed = coverage >= min_coverage`; `leak_count` is
`min_coverage - coverage` on failure and 0 on success; `leak_pixels`
is always empty. -/
def validate_robe_frame (robe : Image) (r c : Nat) : ValidationResult :=
  let coverage := robeCoverage robe
  let min_coverage := 140
  let passed := decide (min_coverage ≤ coverage)
  { row := r
    col := c
    passed := passed
    leak_count := if passed then 0 else min_coverage - coverage
    leak_pixels := [] }

/-- `validate_robe_only`: the robe directory is modelled as the parsed
list of `((row, col), frame)` pairs its filename loop yields; frames in
rows outside `validate_rows` (default `WALK_ROWS`) are skipped, the
rest are validated in order. -/
def validate_robe_only (robeFrames : List ((Nat × Nat) × Image))
    (validate_rows : List Nat) : List ValidationResult :=
  robeFrames.filterMap fun rc =>
    if rc.1.1 ∈ validate_rows then
      some (validate_robe_frame rc.2 rc.1.1 rc.1.2)
    else none

/-! ## Spec-side definitions and concrete frames used by the claims -/

/-- The skin classifier exactly as the claim for the Leak mode words it:
alpha at least 200 and RGB inside one of the configured flesh-tone
ranges — with no further condition. Stated only for comparison with the
source's `is_skin_pixel`, which additionally demands `r >= g` and
`g >= 0.9 * b`. -/
def claimSkinMatch (p : RGBA) : Prop :=
  200 ≤ p.a ∧ ∃ t ∈ SKIN_TONES,
    t.r_min ≤ p.r ∧ p.r ≤ t.r_max ∧ t.g_min ≤ p.g ∧ p.g ≤ t.g_max ∧
    t.b_min ≤ p.b ∧ p.b ≤ t.b_max

instance (p : RGBA) : Decidable (claimSkinMatch p) := by
  unfold claimSkinMatch; infer_instance

/-- The number of chest-box pixels matching the claim's classifier. -/
def claimLeakCount (img : Image) : Nat :=
  ((chestPixels img).filter fun q => decide (claimSkinMatch (img.px q.1 q.2))).length

/-- A 64x64 frame filled with one pixel value. -/
def solidFrame (p : RGBA) : Image := ⟨64, 64, fun _ _ => p⟩

/-- A frame whose colour sits in the light flesh-tone box but has
`g > r`, so the source's extra heuristic rejects it. -/
def frameGB : Image := solidFrame ⟨200, 220, 190, 255⟩

/-- The uniform light-skin frame of the concrete scenario,
RGBA `(210, 170, 150, 255)`. -/
def skinFrame : Image := solidFrame ⟨210, 170, 150, 255⟩

/-- A robe frame covering 12 of the 20 chest-box rows with opaque
pixels: 12 * 18 = 216 covered pixels, 60% of the 360-pixel region. -/
def robe216 : Image :=
  ⟨64, 64, fun x y =>
    if 24 ≤ x ∧ x < 42 ∧ 28 ≤ y ∧ y < 40 then ⟨90, 60, 160, 255⟩ else transparent⟩

/-- The 0x0 image (its chest box is empty after clipping). -/
def emptyImg : Image := ⟨0, 0, fun _ _ => transparent⟩

/-- A fully opaque 64x64 sheet making a 1x1 grid with no empty cell. -/
def witSheet : Image := solidFrame ⟨10, 20, 30, 255⟩

/-! ## Helper lemmas -/

set_option maxRecDepth 40000 in
/-- Table fact behind the opaque-source endpoint of the compositor: the
fixed-point blend with coefficients `coef1 = 32640`, `coef2 = 0` is the
identity on bytes. -/
theorem mixFullTable :
    ∀ i : Fin 256, shiftForDiv255 (i.val * 32640 + 16384) / 128 = i.val := by decide

/-- The opaque-endpoint mixing identity for an arbitrary byte. -/
theorem mixFull (c : Nat) (hc : c < 256) :
    shiftForDiv255 (c * 32640 + 16384) / 128 = c := mixFullTable ⟨c, hc⟩

/-- A fully opaque source pixel composites to itself, whatever the
destination. -/
theorem alphaCompositePix_fullSrc (dst : RGBA) (r g b : Nat)
    (hr : r < 256) (hg : g < 256) (hb : b < 256) :
    alphaCompositePix dst ⟨r, g, b, 255⟩ = ⟨r, g, b, 255⟩ := by
  unfold alphaCompositePix
  norm_num
  exact ⟨mixFull r hr, mixFull g hg, mixFull b hb, rfl⟩

/-- A fully transparent source pixel leaves the destination pixel
unchanged (the compositor's `src.a == 0` fast path). -/
theorem alphaCompositePix_transp (dst src : RGBA) (h : src.a = 0) :
    alphaCompositePix dst src = dst := by
  unfold alphaCompositePix
  rw [if_pos h]

/-- The source's classifier in closed form: opacity, membership in some
flesh-tone box, and the `r >= g`, `10*g >= 9*b` heuristic. -/
theorem is_skin_pixel_eq (p : RGBA) :
    is_skin_pixel p =
      decide (claimSkinMatch p ∧ p.g ≤ p.r ∧ 9 * p.b ≤ 10 * p.g) := by
  rcases p with ⟨r, g, b, a⟩
  unfold is_skin_pixel claimSkinMatch SKIN_TONES
  rw [Bool.eq_iff_iff]
  simp only [List.any_cons, List.any_nil, Bool.or_false, Bool.or_eq_true,
    decide_eq_true_eq, List.mem_cons, List.not_mem_nil, or_false,
    exists_eq_or_imp, exists_eq_left]
  split
  · simp only [Bool.false_eq_true, false_iff]
    omega
  · simp only [Bool.or_false, Bool.or_eq_true, decide_eq_true_eq]
    omega

/-! ## Claims -/

/-- C1: for every sheet of dimensions `cols*64 × rows*64` in which no
cell is fully transparent, stitching the frame set produced by slicing
it, with the same `rows` and `cols`, is pixel-identical to the original
sheet. -/
theorem slice_stitch_roundtrip (sheet : Image) (rows cols : Nat)
    (hw : sheet.width = cols * TILE_SIZE) (hh : sheet.height = rows * TILE_SIZE)
    (hne : ∀ r < rows, ∀ c < cols, cellEmpty sheet r c = false) :
    Image.pixEq (stitch_sheet (slice_frames sheet) rows cols) sheet := by
  refine ⟨hw.symm, hh.symm, ?_⟩
  intro x y hx hy
  have hx' : x < cols * 64 := by simpa [TILE_SIZE] using hx
  have hy' : y < rows * 64 := by simpa [TILE_SIZE] using hy
  have hc : x / 64 < cols := by omega
  have hr : y / 64 < rows := by omega
  have hrows : sheet.height / TILE_SIZE = rows := by
    rw [hh]; simp only [TILE_SIZE]; omega
  have hcols : sheet.width / TILE_SIZE = cols := by
    rw [hw]; simp only [TILE_SIZE]; omega
  have hsf : slice_frames sheet (y / TILE_SIZE) (x / TILE_SIZE) =
      some (cellCrop sheet (y / TILE_SIZE) (x / TILE_SIZE)) := by
    unfold slice_frames
    rw [if_pos, if_neg]
    · rw [hne _ (by simpa [TILE_SIZE] using hr) _ (by simpa [TILE_SIZE] using hc)]
      simp
    · exact ⟨by rw [hrows]; simpa [TILE_SIZE] using hr,
             by rw [hcols]; simpa [TILE_SIZE] using hc⟩
  show (stitch_sheet (slice_frames sheet) rows cols).px x y = sheet.px x y
  dsimp only [stitch_sheet]
  rw [hsf]
  have hwid : (cellCrop sheet (y / TILE_SIZE) (x / TILE_SIZE)).width = TILE_SIZE := by
    simp [cellCrop, Image.crop]
  have hht : (cellCrop sheet (y / TILE_SIZE) (x / TILE_SIZE)).height = TILE_SIZE := by
    simp [cellCrop, Image.crop]
  simp only [hwid, hht, and_self, if_true]
  dsimp only [cellCrop, Image.crop]
  have ex : x / TILE_SIZE * TILE_SIZE + x % TILE_SIZE = x := by
    simp only [TILE_SIZE]; omega
  have ey : y / TILE_SIZE * TILE_SIZE + y % TILE_SIZE = y := by
    simp only [TILE_SIZE]; omega
  rw [ex, ey]

/-- C1 witness: the 1x1 grid on a fully opaque 64x64 sheet. -/
theorem slice_stitch_roundtrip_witness :
    witSheet.width = 1 * TILE_SIZE ∧ witSheet.height = 1 * TILE_SIZE ∧
    (∀ r < 1, ∀ c < 1, cellEmpty witSheet r c = false) ∧
    Image.pixEq (stitch_sheet (slice_frames witSheet) 1 1) witSheet :=
  ⟨rfl, rfl, by decide, slice_stitch_roundtrip witSheet 1 1 rfl rfl (by decide)⟩

set_option maxRecDepth 40000 in
/-- C2 counterexample: a frame whose colour lies in the light flesh-tone
box (so every one of the 360 chest pixels matches the claim's
classifier, far above tolerance 5) but fails the source's `r >= g`
heuristic, so `validate_coverage` passes — refuting the claimed
equivalence. -/
theorem leak_pass_claim_counterexample :
    (validate_coverage frameGB 7 0 5).passed = true ∧
    ¬ ((claimLeakCount frameGB : Int) ≤ 5) := by
  constructor <;> decide

/-- C2 amended: `validate_coverage` passes exactly when the number of
chest-box pixels matching the source's classifier — alpha ≥ 200, RGB in
a configured flesh-tone range, and additionally `r >= g` and
`10*g >= 9*b` — is at most the tolerance. -/
theorem leak_pass_iff_skin_count (img : Image) (row col : Nat) (tol : Int) :
    (validate_coverage img row col tol).passed = true ↔
      ((((chestPixels img).filter fun q =>
          decide (claimSkinMatch (img.px q.1 q.2) ∧
            (img.px q.1 q.2).g ≤ (img.px q.1 q.2).r ∧
            9 * (img.px q.1 q.2).b ≤ 10 * (img.px q.1 q.2).g)).length : Int) ≤ tol) := by
  have hfc : ((chestPixels img).filter fun q => is_skin_pixel (img.px q.1 q.2)) =
      (chestPixels img).filter fun q =>
        decide (claimSkinMatch (img.px q.1 q.2) ∧
          (img.px q.1 q.2).g ≤ (img.px q.1 q.2).r ∧
          9 * (img.px q.1 q.2).b ≤ 10 * (img.px q.1 q.2).g) :=
    List.filter_congr fun q _ => is_skin_pixel_eq (img.px q.1 q.2)
  unfold validate_coverage
  simp only [decide_eq_true_eq, hfc]

set_option maxRecDepth 40000 in
/-- C3 counterexample: a robe frame with 216 of 360 chest pixels opaque
(60%, well below the claimed 85% threshold) is nevertheless not flagged:
the code's absolute threshold 140 is met. -/
theorem robe_ratio_claim_counterexample :
    validate_robe_only [((7, 0), robe216)] WALK_ROWS =
      [validate_robe_frame robe216 7 0] ∧
    (validate_robe_frame robe216 7 0).passed = true ∧
    100 * robeCoverage robe216 < 85 * (chestPixels robe216).length := by
  refine ⟨rfl, ?_, ?_⟩ <;> decide

/-- C3 amended: a robe frame in a validated row is flagged as
under-covered exactly when the absolute count of chest-box pixels with
alpha > 200 is below 140 — not when the covered fraction is below
85%. -/
theorem robe_absolute_threshold (frames : List ((Nat × Nat) × Image))
    (rows : List Nat) (rc : (Nat × Nat) × Image)
    (hmem : rc ∈ frames) (hrow : rc.1.1 ∈ rows) :
    validate_robe_frame rc.2 rc.1.1 rc.1.2 ∈ validate_robe_only frames rows ∧
    ((validate_robe_frame rc.2 rc.1.1 rc.1.2).passed = false ↔
      robeCoverage rc.2 < 140) := by
  constructor
  · exact List.mem_filterMap.mpr ⟨rc, hmem, by rw [if_pos hrow]⟩
  · show (decide (140 ≤ robeCoverage rc.2) = false) ↔ robeCoverage rc.2 < 140
    simp

/-- C3 witness: the 0x0 frame in walk row 7 has coverage 0 and is
flagged. -/
theorem robe_absolute_threshold_witness :
    ((7, 0), emptyImg) ∈ [((7, 0), emptyImg)] ∧ (7 : Nat) ∈ WALK_ROWS ∧
    (validate_robe_frame emptyImg 7 0 ∈
        validate_robe_only [((7, 0), emptyImg)] WALK_ROWS ∧
      ((validate_robe_frame emptyImg 7 0).passed = false ↔
        robeCoverage emptyImg < 140)) :=
  ⟨List.mem_singleton.mpr rfl, by decide,
   robe_absolute_threshold [((7, 0), emptyImg)] WALK_ROWS ((7, 0), emptyImg)
     (List.mem_singleton.mpr rfl) (by decide)⟩

/-- C4: the slicer writes no frame for a cell whose alpha channel is
entirely zero, and for an in-grid cell with no frame file the stitched
sheet's corresponding 64x64 block is fully transparent. -/
theorem empty_cell_behaviour (sheet : Image) (r c : Nat)
    (frames : Nat → Nat → Option Image) (rows cols r2 c2 : Nat)
    (h1 : ∀ x < TILE_SIZE, ∀ y < TILE_SIZE, ((cellCrop sheet r c).px x y).a = 0)
    (h2 : r2 < rows) (h3 : c2 < cols) (h4 : frames r2 c2 = none) :
    slice_frames sheet r c = none ∧
    ∀ x < TILE_SIZE, ∀ y < TILE_SIZE,
      (stitch_sheet frames rows cols).px (c2 * TILE_SIZE + x) (r2 * TILE_SIZE + y) =
        transparent := by
  constructor
  · have hemp : cellEmpty sheet r c = true := by
      unfold cellEmpty tileIsEmpty
      simp only [List.all_eq_true, List.mem_range, beq_iff_eq]
      intro y hy x hx
      exact h1 x (by simpa [cellCrop, Image.crop, TILE_SIZE] using hx)
        y (by simpa [cellCrop, Image.crop, TILE_SIZE] using hy)
    unfold slice_frames
    rw [hemp]
    simp
  · intro x hx y hy
    dsimp only [stitch_sheet]
    have exq : (c2 * TILE_SIZE + x) / TILE_SIZE = c2 := by
      simp only [TILE_SIZE] at hx ⊢; omega
    have eyq : (r2 * TILE_SIZE + y) / TILE_SIZE = r2 := by
      simp only [TILE_SIZE] at hy ⊢; omega
    rw [exq, eyq, h4]

set_option maxRecDepth 40000 in
/-- C4 witness: the all-transparent sheet at cell `(0,0)`, and the empty
frame map stitched into a 1x1 grid. -/
theorem empty_cell_behaviour_witness :
    (∀ x < TILE_SIZE, ∀ y < TILE_SIZE,
      ((cellCrop (solidFrame transparent) 0 0).px x y).a = 0) ∧
    (0 : Nat) < 1 ∧
    (slice_frames (solidFrame transparent) 0 0 = none ∧
     ∀ x < TILE_SIZE, ∀ y < TILE_SIZE,
       (stitch_sheet (fun _ _ => none) 1 1).px (0 * TILE_SIZE + x) (0 * TILE_SIZE + y) =
         transparent) :=
  ⟨by decide, by decide,
   empty_cell_behaviour (solidFrame transparent) 0 0 (fun _ _ => none) 1 1 0 0
     (by decide) (by decide) (by decide) rfl⟩

/-- C5: at a pixel where the robe is fully opaque the composite equals
the robe pixel exactly; where the robe is fully transparent it equals
the body pixel exactly. -/
theorem composite_endpoints (body robe : Image) (x y : Nat)
    (hwf : (robe.px x y).wf) :
    ((robe.px x y).a = 255 →
      (composite_frame body (some robe)).px x y = robe.px x y) ∧
    ((robe.px x y).a = 0 →
      (composite_frame body (some robe)).px x y = body.px x y) := by
  obtain ⟨hr, hg, hb, _⟩ := hwf
  constructor
  · intro h255
    show alphaCompositePix (body.px x y) (robe.px x y) = robe.px x y
    rcases hsrc : robe.px x y with ⟨r, g, b, a⟩
    rw [hsrc] at h255 hr hg hb
    simp only at h255 hr hg hb
    subst h255
    exact alphaCompositePix_fullSrc (body.px x y) r g b
      (by omega) (by omega) (by omega)
  · intro h0
    show alphaCompositePix (body.px x y) (robe.px x y) = body.px x y
    exact alphaCompositePix_transp _ _ h0

/-- C5 witness: an opaque robe pixel over an arbitrary body pixel. -/
theorem composite_endpoints_witness :
    ((solidFrame ⟨5, 6, 7, 255⟩).px 0 0).wf ∧
    ((((solidFrame ⟨5, 6, 7, 255⟩).px 0 0).a = 255 →
       (composite_frame (solidFrame ⟨1, 2, 3, 4⟩)
           (some (solidFrame ⟨5, 6, 7, 255⟩))).px 0 0 =
         (solidFrame ⟨5, 6, 7, 255⟩).px 0 0) ∧
     (((solidFrame ⟨5, 6, 7, 255⟩).px 0 0).a = 0 →
       (composite_frame (solidFrame ⟨1, 2, 3, 4⟩)
           (some (solidFrame ⟨5, 6, 7, 255⟩))).px 0 0 =
         (solidFrame ⟨1, 2, 3, 4⟩).px 0 0)) :=
  ⟨by decide,
   composite_endpoints (solidFrame ⟨1, 2, 3, 4⟩) (solidFrame ⟨5, 6, 7, 255⟩) 0 0
     (by decide)⟩

/-- C6: when the robe frame file is absent, `composite_frame` returns an
image equal — hence pixel-identical — to the body frame. -/
theorem composite_absent_overlay (body : Image) :
    composite_frame body none = body := rfl

/-- C7: with `t1 ≤ t2` and for every frame, a frame passing at tolerance
`t1` also passes at `t2`, and the reported `leak_count` at `t2` is never
smaller than at `t1` — unconditionally, also for frames failing at `t1`,
since the leak list is collected before the tolerance is consulted. -/
theorem tolerance_mono (img : Image) (row col : Nat) (t1 t2 : Int)
    (h12 : t1 ≤ t2) :
    ((validate_coverage img row col t1).passed = true →
      (validate_coverage img row col t2).passed = true) ∧
    (validate_coverage img row col t1).leak_count ≤
      (validate_coverage img row col t2).leak_count := by
  refine ⟨?_, Nat.le_refl _⟩
  intro hp
  unfold validate_coverage at hp ⊢
  simp only [decide_eq_true_eq] at hp ⊢
  exact le_trans hp h12

/-- C7 witness: tolerances 0 and 1 on the fully transparent frame. -/
theorem tolerance_mono_witness :
    (0 : Int) ≤ 1 ∧
    (((validate_coverage (solidFrame transparent) 7 0 0).passed = true →
       (validate_coverage (solidFrame transparent) 7 0 1).passed = true) ∧
     (validate_coverage (solidFrame transparent) 7 0 0).leak_count ≤
       (validate_coverage (solidFrame transparent) 7 0 1).leak_count) :=
  ⟨by decide, tolerance_mono (solidFrame transparent) 7 0 0 1 (by decide)⟩

set_option maxRecDepth 40000 in
/-- C8 counterexample: on the uniform light-skin frame the leak count is
360 (the chest box `(24,28)-(42,48)` is half-open: 18 columns by 20
rows), not the claimed 399. -/
theorem skin_frame_area_counterexample :
    (validate_coverage skinFrame 7 0 5).passed = false ∧
    (validate_coverage skinFrame 7 0 5).leak_count = 360 ∧
    (validate_coverage skinFrame 7 0 5).leak_count ≠ 399 := by
  refine ⟨?_, ?_, ?_⟩ <;> decide

set_option maxRecDepth 40000 in
/-- C8 amended: the uniform light-skin frame fails at tolerance 5 with a
leak count equal to the full chest-box area, which is 18 * 20 = 360. -/
theorem skin_frame_full_region_leak :
    (validate_coverage skinFrame 7 0 5).passed = false ∧
    (validate_coverage skinFrame 7 0 5).leak_count = (chestPixels skinFrame).length ∧
    (chestPixels skinFrame).length = 360 := by
  refine ⟨?_, ?_, ?_⟩ <;> decide

/-- C9: on a missing sheet path, `slice_sheet` returns zero frames
extracted and writes no frame files (and, being total, raises
nothing). -/
theorem slice_missing_sheet : slice_sheet none = (0, fun _ _ => none) := rfl

/-- C10: every result of `validate_robe_only` has an empty `leak_pixels`
list, `leak_count = 0` whenever it passed, and comes from a frame in a
validated row for which passing means an absolute coverage of at least
140 and failing reports `leak_count = 140 - coverage`. -/
theorem robe_result_shape (frames : List ((Nat × Nat) × Image)) (rows : List Nat)
    (res : ValidationResult) (hres : res ∈ validate_robe_only frames rows) :
    res.leak_pixels = [] ∧
    (res.passed = true → res.leak_count = 0) ∧
    ∃ rc ∈ frames, rc.1.1 ∈ rows ∧
      res = validate_robe_frame rc.2 rc.1.1 rc.1.2 ∧
      (res.passed = true ↔ 140 ≤ robeCoverage rc.2) ∧
      (res.passed = false → res.leak_count = 140 - robeCoverage rc.2) := by
  obtain ⟨rc, hmem, hif⟩ := List.mem_filterMap.mp hres
  have hrow : rc.1.1 ∈ rows := by
    by_contra h
    rw [if_neg h] at hif
    exact Option.noConfusion hif
  rw [if_pos hrow] at hif
  have hres' : res = validate_robe_frame rc.2 rc.1.1 rc.1.2 :=
    (Option.some.inj hif).symm
  subst hres'
  refine ⟨rfl, ?_, rc, hmem, hrow, rfl, ?_, ?_⟩
  · intro hp
    have hp' : decide (140 ≤ robeCoverage rc.2) = true := hp
    show (if decide (140 ≤ robeCoverage rc.2) = true then 0
          else 140 - robeCoverage rc.2) = 0
    rw [hp']
    simp
  · show (decide (140 ≤ robeCoverage rc.2) = true) ↔ 140 ≤ robeCoverage rc.2
    simp
  · intro hp
    have hp' : decide (140 ≤ robeCoverage rc.2) = false := hp
    show (if decide (140 ≤ robeCoverage rc.2) = true then 0
          else 140 - robeCoverage rc.2) = 140 - robeCoverage rc.2
    rw [hp']
    simp

/-- C10 witness: the singleton robe directory holding the 0x0 frame at
walk row 7. -/
theorem robe_result_shape_witness :
    (validate_robe_frame emptyImg 7 0 ∈
      validate_robe_only [((7, 0), emptyImg)] WALK_ROWS) ∧
    ((validate_robe_frame emptyImg 7 0).leak_pixels = [] ∧
     ((validate_robe_frame emptyImg 7 0).passed = true →
       (validate_robe_frame emptyImg 7 0).leak_count = 0) ∧
     ∃ rc ∈ [((7, 0), emptyImg)], rc.1.1 ∈ WALK_ROWS ∧
       validate_robe_frame emptyImg 7 0 = validate_robe_frame rc.2 rc.1.1 rc.1.2 ∧
       ((validate_robe_frame emptyImg 7 0).passed = true ↔
         140 ≤ robeCoverage rc.2) ∧
       ((validate_robe_frame emptyImg 7 0).passed = false →
         (validate_robe_frame emptyImg 7 0).leak_count = 140 - robeCoverage rc.2)) :=
  ⟨by decide,
   robe_result_shape [((7, 0), emptyImg)] WALK_ROWS
     (validate_robe_frame emptyImg 7 0) (by decide)⟩

end Tailor
